import Mathlib

/-!
Verification of the mpesa-rust transaction-authentication core
(`src/services/express/express_request.rs` and `src/mpesa_security.rs`)
against its natural-language specification.

Rust strings are embedded as their byte sequences (`List Nat`, each
element < 256); ASCII literals are written through `asciiBytes`.  The
process clock (`chrono::Local::now()`) is embedded as an explicit
`Timestamp` argument: every call site of `now()` in the source becomes
one explicit `Timestamp` parameter, in call order.
-/

namespace Mpesa

/-- Byte sequence of an ASCII string literal (agrees with Rust
`str::as_bytes` on ASCII input). -/
def asciiBytes (s : String) : List Nat :=
  s.data.map Char.toNat

/-- A clock reading at second resolution, as produced by
`chrono::Local::now()` and consumed by the `%Y%m%d%H%M%S` formatter. -/
structure Timestamp where
  year : Nat
  month : Nat
  day : Nat
  hour : Nat
  minute : Nat
  second : Nat
  deriving DecidableEq, Repr

/-- Field ranges of a real clock reading: a calendar date with a
four-digit year (chrono renders `%Y` as four zero-padded digits exactly
on this range) and a 24-hour time, leap second allowed. -/
def Timestamp.isValid (t : Timestamp) : Prop :=
  t.year ≤ 9999 ∧ 1 ≤ t.month ∧ t.month ≤ 12 ∧ 1 ≤ t.day ∧ t.day ≤ 31 ∧
    t.hour ≤ 23 ∧ t.minute ≤ 59 ∧ t.second ≤ 60

instance (t : Timestamp) : Decidable t.isValid := by
  unfold Timestamp.isValid; infer_instance

/-- The `chrono` format string `%Y%m%d%H%M%S` used by
`MpesaExpress::encode_password`: fourteen ASCII digit bytes,
`YYYYMMDDHHMMSS`, each field zero-padded (faithful to chrono on
every `isValid` reading). -/
def formatTimestamp (t : Timestamp) : List Nat :=
  [48 + t.year / 1000 % 10, 48 + t.year / 100 % 10,
   48 + t.year / 10 % 10, 48 + t.year % 10,
   48 + t.month / 10 % 10, 48 + t.month % 10,
   48 + t.day / 10 % 10, 48 + t.day % 10,
   48 + t.hour / 10 % 10, 48 + t.hour % 10,
   48 + t.minute / 10 % 10, 48 + t.minute % 10,
   48 + t.second / 10 % 10, 48 + t.second % 10]

/-- The standard base64 alphabet, `A-Z a-z 0-9 + /`. -/
def b64alphabet : List Char :=
  "ABCDEFGHIJKLMNOPQRSTUVWXYZabcdefghijklmnopqrstuvwxyz0123456789+/".data

/-- Character for a six-bit group. -/
def b64char (n : Nat) : Char :=
  b64alphabet.getD n 'A'

def b64indexAux (cs : List Char) (ch : Char) (i : Nat) : Option Nat :=
  match cs with
  | [] => none
  | c :: rest => if c = ch then some i else b64indexAux rest ch (i + 1)

/-- Position of a character in the base64 alphabet. -/
def b64index (ch : Char) : Option Nat :=
  b64indexAux b64alphabet ch 0

/-- Standard base64 encoding of a byte sequence, with `=` padding and no
line breaks — the behaviour of both `openssl::base64::encode_block`
(used by `encode_password`) and `base64::encode` (used by
`gen_security_credentials`). -/
def base64encodeList : List Nat → List Char
  | [] => []
  | [b1] =>
      [b64char (b1 / 4), b64char (b1 % 4 * 16), '=', '=']
  | [b1, b2] =>
      [b64char (b1 / 4), b64char (b1 % 4 * 16 + b2 / 16),
       b64char (b2 % 16 * 4), '=']
  | b1 :: b2 :: b3 :: rest =>
      b64char (b1 / 4) :: b64char (b1 % 4 * 16 + b2 / 16) ::
        b64char (b2 % 16 * 4 + b3 / 64) :: b64char (b3 % 64) ::
          base64encodeList rest

def base64encode (l : List Nat) : String :=
  String.mk (base64encodeList l)

/-- Standard base64 decoding, inverse of `base64encodeList`. -/
def base64decodeList : List Char → Option (List Nat)
  | [] => some []
  | a :: b :: c :: d :: rest =>
      match b64index a, b64index b with
      | some x, some y =>
          if c = '=' ∧ d = '=' ∧ rest = [] then
            some [x * 4 + y / 16]
          else
            match b64index c with
            | some z =>
                if d = '=' ∧ rest = [] then
                  some [x * 4 + y / 16, y % 16 * 16 + z / 4]
                else
                  match b64index d with
                  | some w =>
                      (base64decodeList rest).map
                        (fun tl => (x * 4 + y / 16) :: (y % 16 * 16 + z / 4) ::
                          (z % 4 * 64 + w) :: tl)
                  | none => none
            | none => none
      | _, _ => none
  | _ => none

def base64decode (s : String) : Option (List Nat) :=
  base64decodeList s.data

instance {e a : Type} [DecidableEq e] [DecidableEq a] : DecidableEq (Except e a) := fun x y =>
  match x, y with
  | Except.ok v, Except.ok w =>
      if h : v = w then isTrue (by rw [h]) else
        isFalse (by intro hh; cases hh; exact h rfl)
  | Except.error v, Except.error w =>
      if h : v = w then isTrue (by rw [h]) else
        isFalse (by intro hh; cases hh; exact h rfl)
  | Except.ok _, Except.error _ => isFalse (by intro hh; cases hh)
  | Except.error _, Except.ok _ => isFalse (by intro hh; cases hh)

/-- Modelled from the spec: `CommandId` (crate::constants) is declared
outside the provided sources.  The spec (§3) describes it as a closed
enumeration of transaction types containing `BusinessBuyGoods` and
`CustomerPayBillOnline` plus others used by sibling transaction
families; `SalaryPayment` and `TransactionReversal` stand in for those
other variants. -/
inductive CommandId where
  | BusinessBuyGoods
  | CustomerPayBillOnline
  | SalaryPayment
  | TransactionReversal
  deriving DecidableEq, Repr

/-- Modelled from the spec: the deployment environment (§3), an
enumerated variant selected once per client configuration; its
declaration is outside the provided sources. -/
inductive Environment where
  | Sandbox
  | Production
  deriving DecidableEq, Repr

/-- The error type returned by the validation path.  `Message` is the
variant used literally by `MpesaExpressBuilder::validate` in the
source.  `InvalidPhoneNumber` is modelled from the spec: the error the
phone-number validator (crate::validator, outside the provided sources)
returns for a malformed number (§4.3 Rule 2).  `UninitializedField` is
the derive_builder error for a missing mandatory field, converted into
this type by the builder; its carrier names the field. -/
inductive MpesaError where
  | Message (msg : String)
  | InvalidPhoneNumber
  | UninitializedField (field : String)
  deriving DecidableEq, Repr

/-- Modelled from the spec: `DEFAULT_PASSKEY` (services module constant,
outside the provided sources) is the well-known default passkey the
builder substitutes when the caller supplies none (§3, §9) — the
publicly documented sandbox passkey. -/
def DEFAULT_PASSKEY : List Nat :=
  asciiBytes "bfb279f9aa9bdbcf158e97dd71a467cd2e0c893059b10f78e6b72ada1ed2c919"

/-- Modelled from the spec: the phone-number predicate enforced by
`PhoneNumberValidator` (crate::validator, outside the provided
sources).  Per §6 a valid number is digits only, no formatting
characters, leading country code `254`, fixed total length 12
(example accepted: `254712345678`; rejected: `0712345678`, `12345`). -/
def validPhoneNumber (p : List Nat) : Bool :=
  p.length = 12 && p.take 3 = [50, 53, 52] && p.all (fun b => 48 ≤ b && b ≤ 57)

/-- The validated, transmittable request value
(`struct MpesaExpress<'mpesa>`).  The `client` handle is embedded by
the only datum of it this core reads: its environment. -/
structure MpesaExpress where
  client : Environment
  business_short_code : List Nat
  transaction_type : CommandId
  amount : Nat
  party_a : List Nat
  party_b : List Nat
  phone_number : List Nat
  callback_url : List Nat
  account_ref : List Nat
  transaction_desc : Option (List Nat)
  pass_key : Option (List Nat)
  deriving DecidableEq, Repr

/-- The outbound wire payload (`struct MpesaExpressRequest<'mpesa>`). -/
structure MpesaExpressRequest where
  business_short_code : List Nat
  password : String
  timestamp : Timestamp
  transaction_type : CommandId
  amount : Nat
  party_a : List Nat
  party_b : List Nat
  phone_number : List Nat
  call_back_url : List Nat
  account_reference : List Nat
  transaction_desc : Option (List Nat)
  deriving DecidableEq, Repr

/-- `MpesaExpress::encode_password`: format the clock reading as
`%Y%m%d%H%M%S`, concatenate short code, passkey (the well-known
default when absent) and timestamp, and base64-encode the bytes.  The
source reads `chrono::Local::now()` itself; that reading is the
explicit `now` argument here. -/
def encode_password (business_short_code : List Nat)
    (pass_key : Option (List Nat)) (now : Timestamp) : String :=
  base64encode (business_short_code ++ (pass_key.getD DEFAULT_PASSKEY) ++
    formatTimestamp now)

/-- `impl From<MpesaExpress> for MpesaExpressRequest`: the source reads
the clock twice — `let timestamp = chrono::Local::now()` for the
`timestamp` field, then again inside `encode_password` — so the
conversion takes two clock readings, in call order. -/
def MpesaExpressRequest.fromExpress (express : MpesaExpress)
    (nowTimestampField nowInsidePassword : Timestamp) : MpesaExpressRequest :=
  { business_short_code := express.business_short_code
    password := encode_password express.business_short_code express.pass_key
      nowInsidePassword
    timestamp := nowTimestampField
    transaction_type := express.transaction_type
    amount := express.amount
    party_a := express.party_a
    party_b := express.party_b
    phone_number := express.phone_number
    call_back_url := express.callback_url
    account_reference := express.account_ref
    transaction_desc := express.transaction_desc }

/-- The derive_builder-generated builder (`MpesaExpressBuilder`): every
field is optional while being supplied.  `transaction_desc` and
`pass_key` carry the declared defaults when unset (`None` and
`Some(DEFAULT_PASSKEY)` respectively). -/
structure MpesaExpressBuilder where
  client : Option Environment
  business_short_code : Option (List Nat)
  transaction_type : Option CommandId
  amount : Option Nat
  party_a : Option (List Nat)
  party_b : Option (List Nat)
  phone_number : Option (List Nat)
  callback_url : Option (List Nat)
  account_ref : Option (List Nat)
  transaction_desc : Option (Option (List Nat))
  pass_key : Option (Option (List Nat))
  deriving DecidableEq, Repr

/-- `MpesaExpressBuilder::validate`: reject unless the transaction type
is `BusinessBuyGoods` or `CustomerPayBillOnline`; then, if a phone
number has been supplied, run the phone-number validator on it. -/
def MpesaExpressBuilder.validate (b : MpesaExpressBuilder) :
    Except MpesaError Unit :=
  if b.transaction_type ≠ some CommandId.BusinessBuyGoods ∧
      b.transaction_type ≠ some CommandId.CustomerPayBillOnline then
    Except.error (MpesaError.Message
      "Invalid transaction type. Expected BusinessBuyGoods or CustomerPayBillOnline")
  else
    match b.phone_number with
    | some p =>
        if validPhoneNumber p then Except.ok () else
          Except.error MpesaError.InvalidPhoneNumber
    | none => Except.ok ()

/-- The derive_builder-generated `build` with
`build_fn(error = "MpesaError", validate = "Self::validate")`: run
`validate` first, then unwrap every mandatory field (error on a missing
one) and apply the declared defaults to `transaction_desc` and
`pass_key`. -/
def MpesaExpressBuilder.build (b : MpesaExpressBuilder) :
    Except MpesaError MpesaExpress :=
  match b.validate with
  | Except.error e => Except.error e
  | Except.ok _ =>
    match b.client, b.business_short_code, b.transaction_type, b.amount,
        b.party_a, b.party_b, b.phone_number, b.callback_url, b.account_ref with
    | some client, some sc, some tt, some amt, some pa, some pb, some ph,
        some cb, some ar =>
        Except.ok
          { client := client
            business_short_code := sc
            transaction_type := tt
            amount := amt
            party_a := pa
            party_b := pb
            phone_number := ph
            callback_url := cb
            account_ref := ar
            transaction_desc := b.transaction_desc.getD none
            pass_key := b.pass_key.getD (some DEFAULT_PASSKEY) }
    | _, _, _, _, _, _, _, _, _ =>
        Except.error (MpesaError.UninitializedField "field")

/-- `MpesaExpress::from_request`: build an `MpesaExpress` directly from
a wire request and a passkey, copying the fields verbatim — no
validation is performed. -/
def MpesaExpress.from_request (client : Environment)
    (request : MpesaExpressRequest) (pass_key : Option (List Nat)) :
    MpesaExpress :=
  { client := client
    business_short_code := request.business_short_code
    transaction_type := request.transaction_type
    amount := request.amount
    party_a := request.party_a
    party_b := request.party_b
    phone_number := request.phone_number
    callback_url := request.call_back_url
    account_ref := request.account_reference
    transaction_desc := request.transaction_desc
    pass_key := pass_key }

/-- The error classification of `gen_security_credentials` per the spec
(§4.1, §7): certificate unparsable, key extraction failed, encryption
failed.  Modelled from the spec: the concrete error enum lives in the
crate's errors module, outside the provided sources. -/
inductive EncryptionError where
  | CertificateParse
  | KeyExtraction
  | EncryptFailed
  deriving DecidableEq, Repr

/-- Abstract RSA key material (`openssl::rsa::Rsa`): the modulus width
in bytes and the outcome of `public_encrypt` with PKCS#1 v1.5 padding
on each plaintext (the ciphertext bytes, or failure). -/
structure RsaKey where
  modulusBytes : Nat
  encryptBytes : List Nat → Option (List Nat)

/-- Abstract public key handle (`openssl::pkey::PKey`): its `size()`
(output buffer size in bytes) and the RSA material, when the key is an
RSA key. -/
structure PubKey where
  size : Nat
  rsaKey : Option RsaKey

/-- Abstract parsed certificate (`openssl::x509::X509`): public-key
extraction outcome. -/
structure Cert where
  publicKey : Option PubKey

/-- Abstract certificate parser (`X509::from_pem`): outcome per PEM
input. -/
structure X509Model where
  fromPem : List Nat → Option Cert

/-- `public_encrypt` writes the ciphertext into the start of the
caller's buffer and leaves the rest of the buffer unchanged; the
result has the buffer's length. -/
def writeBuffer (buf ct : List Nat) : List Nat :=
  ct.take buf.length ++ buf.drop ct.length

/-- `Mpesa::gen_security_credentials` over an abstract openssl model:
parse the environment's certificate from PEM, extract the public key,
then its RSA material, allocate a zero buffer of `pub_key.size()`
bytes, encrypt the initiator password into it with PKCS#1 v1.5
padding, and base64-encode the entire buffer.  Each fallible openssl
call maps to its spec-named error variant. -/
def gen_security_credentials (model : X509Model) (pem : List Nat)
    (initiator_password : List Nat) : Except EncryptionError String :=
  match model.fromPem pem with
  | none => Except.error EncryptionError.CertificateParse
  | some cert =>
    match cert.publicKey with
    | none => Except.error EncryptionError.KeyExtraction
    | some pub_key =>
      match pub_key.rsaKey with
      | none => Except.error EncryptionError.KeyExtraction
      | some rsa_key =>
        let buf_len := pub_key.size
        let buffer := List.replicate buf_len 0
        match rsa_key.encryptBytes initiator_password with
        | none => Except.error EncryptionError.EncryptFailed
        | some ct => Except.ok (base64encode (writeBuffer buffer ct))

/-- External facts about RSA PKCS#1 v1.5 the code relies on: `size()`
agrees with the modulus width, encryption succeeds on every plaintext
shorter than modulus − 11 bytes, and ciphertexts are bytes. -/
def RsaFaithful (pub_key : PubKey) (rsa_key : RsaKey) : Prop :=
  pub_key.size = rsa_key.modulusBytes ∧
    ∀ pw, pw.length + 11 < rsa_key.modulusBytes →
      ∃ ct, rsa_key.encryptBytes pw = some ct ∧ ∀ b ∈ ct, b < 256

theorem b64index_b64char : ∀ n, n < 64 → b64index (b64char n) = some n := by decide

theorem b64char_ne_pad : ∀ n, n < 64 → b64char n ≠ '=' := by decide

theorem b64_roundtrip_aux :
    ∀ (n : Nat) (l : List Nat), l.length ≤ 3 * n → (∀ b ∈ l, b < 256) →
      base64decodeList (base64encodeList l) = some l := by
  intro n
  induction n with
  | zero =>
    intro l hlen _
    match l, hlen with
    | [], _ => rfl
  | succ n ih =>
    intro l hlen hb
    match l with
    | [] => rfl
    | [b1] =>
      have h1 : b1 < 256 := hb b1 (by simp)
      simp only [base64encodeList, base64decodeList,
        b64index_b64char _ (show b1 / 4 < 64 by omega),
        b64index_b64char _ (show b1 % 4 * 16 < 64 by omega)]
      rw [if_pos ⟨trivial, trivial, trivial⟩]
      simp only [Option.some.injEq, List.cons.injEq, and_true]
      omega
    | [b1, b2] =>
      have h1 : b1 < 256 := hb b1 (by simp)
      have h2 : b2 < 256 := hb b2 (by simp)
      simp only [base64encodeList, base64decodeList,
        b64index_b64char _ (show b1 / 4 < 64 by omega),
        b64index_b64char _ (show b1 % 4 * 16 + b2 / 16 < 64 by omega),
        b64index_b64char _ (show b2 % 16 * 4 < 64 by omega)]
      rw [if_neg (fun hc => b64char_ne_pad _ (show b2 % 16 * 4 < 64 by omega) hc.1)]
      rw [if_pos ⟨trivial, trivial⟩]
      simp only [Option.some.injEq, List.cons.injEq, and_true]
      omega
    | b1 :: b2 :: b3 :: rest =>
      have h1 : b1 < 256 := hb b1 (by simp)
      have h2 : b2 < 256 := hb b2 (by simp)
      have h3 : b3 < 256 := hb b3 (by simp)
      have hih := ih rest (by simp at hlen ⊢; omega)
        (fun b hbm => hb b (by simp [hbm]))
      simp only [base64encodeList, base64decodeList,
        b64index_b64char _ (show b1 / 4 < 64 by omega),
        b64index_b64char _ (show b1 % 4 * 16 + b2 / 16 < 64 by omega),
        b64index_b64char _ (show b2 % 16 * 4 + b3 / 64 < 64 by omega),
        b64index_b64char _ (show b3 % 64 < 64 by omega)]
      rw [if_neg (fun hc => b64char_ne_pad _ (show b2 % 16 * 4 + b3 / 64 < 64 by omega) hc.1)]
      rw [if_neg (fun hc => b64char_ne_pad _ (show b3 % 64 < 64 by omega) hc.1)]
      rw [hih]
      simp only [Option.map_some', Option.some.injEq, List.cons.injEq]
      exact ⟨by omega, by omega, by omega, trivial⟩

theorem b64_roundtrip (l : List Nat) (hb : ∀ b ∈ l, b < 256) :
    base64decodeList (base64encodeList l) = some l :=
  b64_roundtrip_aux l.length l (by omega) hb

theorem base64encodeList_length_aux :
    ∀ (n : Nat) (l : List Nat), l.length ≤ 3 * n →
      (base64encodeList l).length = 4 * ((l.length + 2) / 3) := by
  intro n
  induction n with
  | zero =>
    intro l hlen
    match l, hlen with
    | [], _ => rfl
  | succ n ih =>
    intro l hlen
    match l with
    | [] => rfl
    | [b1] => simp [base64encodeList]
    | [b1, b2] => simp [base64encodeList]
    | b1 :: b2 :: b3 :: rest =>
      simp only [base64encodeList, List.length_cons]
      rw [ih rest (by simp at hlen; omega)]
      omega

theorem base64encodeList_length (l : List Nat) :
    (base64encodeList l).length = 4 * ((l.length + 2) / 3) :=
  base64encodeList_length_aux l.length l (by omega)

theorem base64encode_length (l : List Nat) :
    (base64encode l).length = 4 * ((l.length + 2) / 3) := by
  simpa [base64encode, String.length] using base64encodeList_length l

theorem base64encode_inj (l1 l2 : List Nat)
    (hb1 : ∀ b ∈ l1, b < 256) (hb2 : ∀ b ∈ l2, b < 256)
    (he : base64encode l1 = base64encode l2) : l1 = l2 := by
  have hd : base64encodeList l1 = base64encodeList l2 := congrArg String.data he
  have := b64_roundtrip l1 hb1
  rw [hd, b64_roundtrip l2 hb2] at this
  exact (Option.some.injEq _ _ ▸ this).symm

theorem formatTimestamp_length (t : Timestamp) : (formatTimestamp t).length = 14 := rfl

theorem formatTimestamp_bytes_lt (t : Timestamp) : ∀ b ∈ formatTimestamp t, b < 256 := by
  intro b hb
  simp only [formatTimestamp, List.mem_cons, List.not_mem_nil, or_false] at hb
  omega

theorem formatTimestamp_inj :
    ∀ t1 t2 : Timestamp, t1.isValid → t2.isValid →
      formatTimestamp t1 = formatTimestamp t2 → t1 = t2 := by
  rintro ⟨y1, mo1, d1, h1, mi1, s1⟩ ⟨y2, mo2, d2, h2, mi2, s2⟩ hv1 hv2 he
  obtain ⟨hy1, hmo1, hmo1b, hd1, hd1b, hh1, hmi1, hs1⟩ := hv1
  obtain ⟨hy2, hmo2, hmo2b, hd2, hd2b, hh2, hmi2, hs2⟩ := hv2
  simp only [formatTimestamp, List.cons.injEq, and_true] at he
  simp only [Timestamp.mk.injEq]
  simp only [Timestamp.isValid] at *
  refine ⟨by omega, by omega, by omega, by omega, by omega, by omega⟩

theorem writeBuffer_length (buf ct : List Nat) :
    (writeBuffer buf ct).length = buf.length := by
  simp only [writeBuffer, List.length_append, List.length_take, List.length_drop]
  omega

theorem writeBuffer_bytes_lt (buf ct : List Nat)
    (hb : ∀ b ∈ buf, b < 256) (hc : ∀ b ∈ ct, b < 256) :
    ∀ b ∈ writeBuffer buf ct, b < 256 := by
  intro b hbm
  simp only [writeBuffer, List.mem_append] at hbm
  rcases hbm with h | h
  · exact hc b (List.mem_of_mem_take h)
  · exact hb b (List.mem_of_mem_drop h)

/-- Distinct clock seconds give distinct passwords: the fourteen-digit
timestamp is injective on valid readings, concatenation with a fixed
prefix preserves distinctness, and base64 is injective on bytes. -/
theorem encode_password_timestamp_inj (sc : List Nat) (pk : Option (List Nat))
    (t1 t2 : Timestamp) (hsc : ∀ b ∈ sc, b < 256)
    (hpk : ∀ b ∈ pk.getD DEFAULT_PASSKEY, b < 256)
    (hv1 : t1.isValid) (hv2 : t2.isValid) (hne : t1 ≠ t2) :
    encode_password sc pk t1 ≠ encode_password sc pk t2 := by
  intro he
  apply hne
  unfold encode_password at he
  have hbytes : ∀ t : Timestamp,
      ∀ b ∈ sc ++ pk.getD DEFAULT_PASSKEY ++ formatTimestamp t, b < 256 := by
    intro t b hb
    simp only [List.mem_append] at hb
    rcases hb with (h | h) | h
    · exact hsc b h
    · exact hpk b h
    · exact formatTimestamp_bytes_lt t b h
  have hl := base64encode_inj _ _ (hbytes t1) (hbytes t2) he
  rw [List.append_assoc, List.append_assoc] at hl
  exact formatTimestamp_inj t1 t2 hv1 hv2
    (List.append_cancel_left (List.append_cancel_left hl))

/-- C1: for every short code, passkey and valid clock reading,
`encode_password` returns the standard-alphabet base64 encoding of the
byte concatenation short code, passkey, then the fourteen-digit
zero-padded `YYYYMMDDHHMMSS` rendering of the reading; at the spec's
end-to-end inputs (short code 174379, the documented passkey, timestamp
20231010101010) it returns exactly the base64 of that literal
concatenation. -/
theorem encode_password_is_base64_of_concatenation :
    (∀ (s p : List Nat) (now : Timestamp), now.isValid →
        encode_password s (some p) now =
          base64encode (s ++ p ++ formatTimestamp now) ∧
          (formatTimestamp now).length = 14) ∧
      formatTimestamp ⟨2023, 10, 10, 10, 10, 10⟩ =
        asciiBytes "20231010101010" ∧
      encode_password (asciiBytes "174379")
          (some (asciiBytes
            "bfb279f9aa9bdbcf158e97dd71a467cd2e0c893059b10f78e6b72ada1ed2c919"))
          ⟨2023, 10, 10, 10, 10, 10⟩ =
        base64encode (asciiBytes
          ("174379bfb279f9aa9bdbcf158e97dd71a467cd2e0c893059b10f78e6b72ada1ed2c919"
            ++ "20231010101010")) ∧
      encode_password (asciiBytes "174379")
          (some (asciiBytes
            "bfb279f9aa9bdbcf158e97dd71a467cd2e0c893059b10f78e6b72ada1ed2c919"))
          ⟨2023, 10, 10, 10, 10, 10⟩ =
        "MTc0Mzc5YmZiMjc5ZjlhYTliZGJjZjE1OGU5N2RkNzFhNDY3Y2QyZTBjODkzMDU5YjEwZjc4ZTZiNzJhZGExZWQyYzkxOTIwMjMxMDEwMTAxMDEw" := by
  refine ⟨fun s p now _ => ⟨rfl, rfl⟩, by decide, by decide, by decide⟩

theorem encode_password_is_base64_of_concatenation_witness :
    Timestamp.isValid ⟨2023, 10, 10, 10, 10, 10⟩ ∧
      encode_password (asciiBytes "174379") (some (asciiBytes "pk"))
          ⟨2023, 10, 10, 10, 10, 10⟩ =
        base64encode (asciiBytes "174379" ++ asciiBytes "pk" ++
          formatTimestamp ⟨2023, 10, 10, 10, 10, 10⟩) :=
  ⟨by decide,
    (encode_password_is_base64_of_concatenation.1 (asciiBytes "174379")
      (asciiBytes "pk") ⟨2023, 10, 10, 10, 10, 10⟩ (by decide)).1⟩

/-- C7: `encode_password` is deterministic in its short code, passkey
and clock second, and for a fixed short code and passkey two clock
readings that differ (by at least one second — i.e. are distinct at the
second resolution the formatter keeps) produce different outputs. -/
theorem encode_password_deterministic_and_second_sensitive :
    ∀ (sc : List Nat) (pk : Option (List Nat)) (t1 t2 : Timestamp),
      (∀ b ∈ sc, b < 256) → (∀ b ∈ pk.getD DEFAULT_PASSKEY, b < 256) →
      t1.isValid → t2.isValid →
      encode_password sc pk t1 = encode_password sc pk t1 ∧
        (t1 ≠ t2 → encode_password sc pk t1 ≠ encode_password sc pk t2) :=
  fun sc pk t1 t2 hsc hpk hv1 hv2 =>
    ⟨rfl, encode_password_timestamp_inj sc pk t1 t2 hsc hpk hv1 hv2⟩

theorem encode_password_deterministic_and_second_sensitive_witness :
    encode_password (asciiBytes "174379") none ⟨2023, 10, 10, 10, 10, 10⟩ ≠
      encode_password (asciiBytes "174379") none ⟨2023, 10, 10, 10, 10, 11⟩ :=
  (encode_password_deterministic_and_second_sensitive (asciiBytes "174379")
    none ⟨2023, 10, 10, 10, 10, 10⟩ ⟨2023, 10, 10, 10, 10, 11⟩
    (by decide) (by decide) (by decide) (by decide)).2 (by decide)

/-- C9: converting a `MpesaExpress` into the wire request consumes two
independent clock readings — the first becomes the request's
`timestamp` field, the second is read inside the password derivation —
so when the conversion straddles a second boundary (the two readings
differ), the serialized timestamp differs from the timestamp embedded
in the base64 password: the password equals the encoding under the
second reading and differs from the encoding under the first. -/
theorem conversion_reads_clock_twice :
    ∀ (e : MpesaExpress) (tField tPassword : Timestamp),
      (∀ b ∈ e.business_short_code, b < 256) →
      (∀ b ∈ e.pass_key.getD DEFAULT_PASSKEY, b < 256) →
      tField.isValid → tPassword.isValid →
      ((MpesaExpressRequest.fromExpress e tField tPassword).timestamp = tField ∧
        (MpesaExpressRequest.fromExpress e tField tPassword).password =
          encode_password e.business_short_code e.pass_key tPassword) ∧
        (tField ≠ tPassword →
          (MpesaExpressRequest.fromExpress e tField tPassword).password ≠
            encode_password e.business_short_code e.pass_key tField) :=
  fun e tField tPassword hsc hpk hv1 hv2 =>
    ⟨⟨rfl, rfl⟩, fun hne =>
      encode_password_timestamp_inj e.business_short_code e.pass_key
        tPassword tField hsc hpk hv2 hv1 (fun h => hne h.symm)⟩

theorem conversion_reads_clock_twice_witness :
    (MpesaExpressRequest.fromExpress
        { client := Environment.Sandbox
          business_short_code := asciiBytes "174379"
          transaction_type := CommandId.CustomerPayBillOnline
          amount := 10
          party_a := asciiBytes "254712345678"
          party_b := asciiBytes "174379"
          phone_number := asciiBytes "254712345678"
          callback_url := asciiBytes "https://example.com/callback"
          account_ref := asciiBytes "ref"
          transaction_desc := none
          pass_key := none }
        ⟨2023, 10, 10, 10, 10, 10⟩ ⟨2023, 10, 10, 10, 10, 11⟩).password ≠
      encode_password (asciiBytes "174379") none ⟨2023, 10, 10, 10, 10, 10⟩ :=
  (conversion_reads_clock_twice _ ⟨2023, 10, 10, 10, 10, 10⟩
    ⟨2023, 10, 10, 10, 10, 11⟩ (by decide) (by decide) (by decide)
    (by decide)).2 (by decide)

/-- C10: the conversion into `MpesaExpressRequest` copies every carried
field verbatim — short code, transaction type, amount, both parties,
phone number, callback URL, account reference and description — and
only the `password` and `timestamp` fields are newly computed. -/
theorem conversion_copies_fields_verbatim :
    ∀ (e : MpesaExpress) (tField tPassword : Timestamp),
      (MpesaExpressRequest.fromExpress e tField tPassword).business_short_code =
          e.business_short_code ∧
        (MpesaExpressRequest.fromExpress e tField tPassword).transaction_type =
          e.transaction_type ∧
        (MpesaExpressRequest.fromExpress e tField tPassword).amount = e.amount ∧
        (MpesaExpressRequest.fromExpress e tField tPassword).party_a = e.party_a ∧
        (MpesaExpressRequest.fromExpress e tField tPassword).party_b = e.party_b ∧
        (MpesaExpressRequest.fromExpress e tField tPassword).phone_number =
          e.phone_number ∧
        (MpesaExpressRequest.fromExpress e tField tPassword).call_back_url =
          e.callback_url ∧
        (MpesaExpressRequest.fromExpress e tField tPassword).account_reference =
          e.account_ref ∧
        (MpesaExpressRequest.fromExpress e tField tPassword).transaction_desc =
          e.transaction_desc ∧
        (MpesaExpressRequest.fromExpress e tField tPassword).password =
          encode_password e.business_short_code e.pass_key tPassword ∧
        (MpesaExpressRequest.fromExpress e tField tPassword).timestamp = tField :=
  fun _ _ _ => ⟨rfl, rfl, rfl, rfl, rfl, rfl, rfl, rfl, rfl, rfl, rfl⟩

/-- Characterization of the validation gate: it accepts exactly the
builders whose transaction type is one of the two legal command ids and
whose phone number, when supplied, passes the phone validator. -/
theorem validate_ok_iff (b : MpesaExpressBuilder) :
    b.validate = Except.ok () ↔
      ((b.transaction_type = some CommandId.BusinessBuyGoods ∨
          b.transaction_type = some CommandId.CustomerPayBillOnline) ∧
        ∀ p, b.phone_number = some p → validPhoneNumber p = true) := by
  unfold MpesaExpressBuilder.validate
  split
  next h =>
    constructor
    · intro hco; exact absurd hco (by simp)
    · rintro ⟨hcmd, -⟩
      rcases hcmd with h1 | h1
      · exact absurd h1 h.1
      · exact absurd h1 h.2
  next h =>
    rw [not_and_or, not_not, not_not] at h
    split
    next p hp =>
      split
      next hvp =>
        constructor
        · intro _
          refine ⟨h, fun q hq => ?_⟩
          rw [hp] at hq
          cases hq
          exact hvp
        · intro _; rfl
      next hvp =>
        constructor
        · intro hco; exact absurd hco (by simp)
        · rintro ⟨-, hphone⟩
          exact absurd (hphone p hp) hvp
    next hp =>
      constructor
      · intro _; exact ⟨h, fun q hq => by rw [hp] at hq; cases hq⟩
      · intro _; rfl

/-- Inversion of a successful `build`: validation passed, every
mandatory field was supplied and is copied into the result, and the
passkey default applies when the caller set none. -/
theorem build_ok_inversion (b : MpesaExpressBuilder) (e : MpesaExpress)
    (hok : b.build = Except.ok e) :
    b.validate = Except.ok () ∧
      b.transaction_type = some e.transaction_type ∧
      b.phone_number = some e.phone_number ∧
      e.pass_key = b.pass_key.getD (some DEFAULT_PASSKEY) := by
  unfold MpesaExpressBuilder.build at hok
  cases hval : b.validate with
  | error err => rw [hval] at hok; cases hok
  | ok u =>
    cases u
    rw [hval] at hok
    cases hcl : b.client with
    | none => rw [hcl] at hok; simp at hok
    | some client =>
    cases hsc : b.business_short_code with
    | none => rw [hcl, hsc] at hok; simp at hok
    | some sc =>
    cases htt : b.transaction_type with
    | none => rw [hcl, hsc, htt] at hok; simp at hok
    | some tt =>
    cases hamt : b.amount with
    | none => rw [hcl, hsc, htt, hamt] at hok; simp at hok
    | some amt =>
    cases hpa : b.party_a with
    | none => rw [hcl, hsc, htt, hamt, hpa] at hok; simp at hok
    | some pa =>
    cases hpb : b.party_b with
    | none => rw [hcl, hsc, htt, hamt, hpa, hpb] at hok; simp at hok
    | some pb =>
    cases hph : b.phone_number with
    | none => rw [hcl, hsc, htt, hamt, hpa, hpb, hph] at hok; simp at hok
    | some ph =>
    cases hcb : b.callback_url with
    | none => rw [hcl, hsc, htt, hamt, hpa, hpb, hph, hcb] at hok; simp at hok
    | some cb =>
    cases har : b.account_ref with
    | none => rw [hcl, hsc, htt, hamt, hpa, hpb, hph, hcb, har] at hok; simp at hok
    | some ar =>
      rw [hcl, hsc, htt, hamt, hpa, hpb, hph, hcb, har] at hok
      simp only [Except.ok.injEq] at hok
      subst hok
      exact ⟨rfl, rfl, rfl, rfl⟩

/-- C2 counterexample: the claim "Ok exactly when the CommandId is
BusinessBuyGoods or CustomerPayBillOnline" is false — a builder with
the legal command `CustomerPayBillOnline` but the malformed phone
number "12345" is rejected; and the command-id error does not carry
the actual value — two builders with different illegal commands
produce the identical error value. -/
theorem validator_not_ok_iff_command_only :
    MpesaExpressBuilder.validate
        { client := some Environment.Sandbox
          business_short_code := some (asciiBytes "174379")
          transaction_type := some CommandId.CustomerPayBillOnline
          amount := some 10
          party_a := some (asciiBytes "254712345678")
          party_b := some (asciiBytes "174379")
          phone_number := some (asciiBytes "12345")
          callback_url := some (asciiBytes "https://example.com/callback")
          account_ref := some (asciiBytes "ref")
          transaction_desc := none
          pass_key := none } =
      Except.error MpesaError.InvalidPhoneNumber ∧
      MpesaExpressBuilder.validate
          { client := some Environment.Sandbox
            business_short_code := some (asciiBytes "174379")
            transaction_type := some CommandId.SalaryPayment
            amount := some 10
            party_a := some (asciiBytes "254712345678")
            party_b := some (asciiBytes "174379")
            phone_number := some (asciiBytes "254712345678")
            callback_url := some (asciiBytes "https://example.com/callback")
            account_ref := some (asciiBytes "ref")
            transaction_desc := none
            pass_key := none } =
        MpesaExpressBuilder.validate
          { client := some Environment.Sandbox
            business_short_code := some (asciiBytes "174379")
            transaction_type := some CommandId.TransactionReversal
            amount := some 10
            party_a := some (asciiBytes "254712345678")
            party_b := some (asciiBytes "174379")
            phone_number := some (asciiBytes "254712345678")
            callback_url := some (asciiBytes "https://example.com/callback")
            account_ref := some (asciiBytes "ref")
            transaction_desc := none
            pass_key := none } ∧
      CommandId.SalaryPayment ≠ CommandId.TransactionReversal := by
  refine ⟨by decide, by decide, by decide⟩

/-- C2 amended: the validator returns Ok exactly when the CommandId is
BusinessBuyGoods or CustomerPayBillOnline AND any supplied phone number
passes the phone validator; every other (or missing) CommandId fails
with the fixed message error naming the expected set — the error does
not carry the actual value. -/
theorem validator_command_membership :
    (∀ b : MpesaExpressBuilder,
        b.validate = Except.ok () ↔
          ((b.transaction_type = some CommandId.BusinessBuyGoods ∨
              b.transaction_type = some CommandId.CustomerPayBillOnline) ∧
            ∀ p, b.phone_number = some p → validPhoneNumber p = true)) ∧
      ∀ b : MpesaExpressBuilder,
        ¬(b.transaction_type = some CommandId.BusinessBuyGoods ∨
            b.transaction_type = some CommandId.CustomerPayBillOnline) →
          b.validate = Except.error (MpesaError.Message
            "Invalid transaction type. Expected BusinessBuyGoods or CustomerPayBillOnline") := by
  refine ⟨validate_ok_iff, fun b hcmd => ?_⟩
  rw [not_or] at hcmd
  unfold MpesaExpressBuilder.validate
  rw [if_pos ⟨hcmd.1, hcmd.2⟩]

theorem validator_command_membership_witness :
    MpesaExpressBuilder.validate
        { client := some Environment.Sandbox
          business_short_code := some (asciiBytes "174379")
          transaction_type := some CommandId.CustomerPayBillOnline
          amount := some 10
          party_a := some (asciiBytes "254712345678")
          party_b := some (asciiBytes "174379")
          phone_number := some (asciiBytes "254712345678")
          callback_url := some (asciiBytes "https://example.com/callback")
          account_ref := some (asciiBytes "ref")
          transaction_desc := none
          pass_key := none } = Except.ok () ∧
      MpesaExpressBuilder.validate
          { client := some Environment.Sandbox
            business_short_code := some (asciiBytes "174379")
            transaction_type := some CommandId.SalaryPayment
            amount := some 10
            party_a := some (asciiBytes "254712345678")
            party_b := some (asciiBytes "174379")
            phone_number := some (asciiBytes "254712345678")
            callback_url := some (asciiBytes "https://example.com/callback")
            account_ref := some (asciiBytes "ref")
            transaction_desc := none
            pass_key := none } =
        Except.error (MpesaError.Message
          "Invalid transaction type. Expected BusinessBuyGoods or CustomerPayBillOnline") :=
  ⟨(validator_command_membership.1 _).mpr
      ⟨Or.inr rfl, fun p hp => by cases hp; decide⟩,
    validator_command_membership.2 _ (by decide)⟩

/-- C8 counterexample: an invalid present phone number does not always
yield `InvalidPhoneNumber` — when the command-id rule also fails, the
validator stops at the command-id error instead, even though the phone
number ("12345") is invalid. -/
theorem phone_rule_error_not_always_invalid_phone :
    MpesaExpressBuilder.validate
        { client := some Environment.Sandbox
          business_short_code := some (asciiBytes "174379")
          transaction_type := some CommandId.SalaryPayment
          amount := some 10
          party_a := some (asciiBytes "254712345678")
          party_b := some (asciiBytes "174379")
          phone_number := some (asciiBytes "12345")
          callback_url := some (asciiBytes "https://example.com/callback")
          account_ref := some (asciiBytes "ref")
          transaction_desc := none
          pass_key := none } =
      Except.error (MpesaError.Message
        "Invalid transaction type. Expected BusinessBuyGoods or CustomerPayBillOnline") ∧
      MpesaExpressBuilder.validate
          { client := some Environment.Sandbox
            business_short_code := some (asciiBytes "174379")
            transaction_type := some CommandId.SalaryPayment
            amount := some 10
            party_a := some (asciiBytes "254712345678")
            party_b := some (asciiBytes "174379")
            phone_number := some (asciiBytes "12345")
            callback_url := some (asciiBytes "https://example.com/callback")
            account_ref := some (asciiBytes "ref")
            transaction_desc := none
            pass_key := none } ≠
        Except.error MpesaError.InvalidPhoneNumber ∧
      validPhoneNumber (asciiBytes "12345") = false := by
  refine ⟨by decide, by decide, by decide⟩

/-- C8 amended: the phone rule is applied only when a phone number is
present.  A present non-matching number always prevents Ok; it yields
`InvalidPhoneNumber` whenever the command-id rule (checked first)
passes.  An absent phone number imposes no constraint: validation then
succeeds exactly on command-id membership. -/
theorem phone_rule_applied_only_when_present :
    (∀ (b : MpesaExpressBuilder) (p : List Nat), b.phone_number = some p →
        validPhoneNumber p = false → b.validate ≠ Except.ok ()) ∧
      (∀ (b : MpesaExpressBuilder) (p : List Nat), b.phone_number = some p →
        validPhoneNumber p = false →
        (b.transaction_type = some CommandId.BusinessBuyGoods ∨
          b.transaction_type = some CommandId.CustomerPayBillOnline) →
        b.validate = Except.error MpesaError.InvalidPhoneNumber) ∧
      ∀ b : MpesaExpressBuilder, b.phone_number = none →
        (b.validate = Except.ok () ↔
          (b.transaction_type = some CommandId.BusinessBuyGoods ∨
            b.transaction_type = some CommandId.CustomerPayBillOnline)) := by
  refine ⟨fun b p hp hbad hok => ?_, fun b p hp hbad hcmd => ?_, fun b hp => ?_⟩
  · have := ((validate_ok_iff b).mp hok).2 p hp
    rw [hbad] at this
    cases this
  · unfold MpesaExpressBuilder.validate
    rw [if_neg (by rw [not_and_or, not_not, not_not]; exact hcmd)]
    rw [hp]
    simp only [hbad]
    rfl
  · rw [validate_ok_iff b]
    constructor
    · exact fun h => h.1
    · exact fun h => ⟨h, fun q hq => by rw [hp] at hq; cases hq⟩

theorem phone_rule_applied_only_when_present_witness :
    MpesaExpressBuilder.validate
        { client := some Environment.Sandbox
          business_short_code := some (asciiBytes "174379")
          transaction_type := some CommandId.CustomerPayBillOnline
          amount := some 10
          party_a := some (asciiBytes "254712345678")
          party_b := some (asciiBytes "174379")
          phone_number := some (asciiBytes "0712345678")
          callback_url := some (asciiBytes "https://example.com/callback")
          account_ref := some (asciiBytes "ref")
          transaction_desc := none
          pass_key := none } =
      Except.error MpesaError.InvalidPhoneNumber ∧
      MpesaExpressBuilder.validate
          { client := some Environment.Sandbox
            business_short_code := some (asciiBytes "174379")
            transaction_type := some CommandId.CustomerPayBillOnline
            amount := some 10
            party_a := some (asciiBytes "254712345678")
            party_b := some (asciiBytes "174379")
            phone_number := none
            callback_url := some (asciiBytes "https://example.com/callback")
            account_ref := some (asciiBytes "ref")
            transaction_desc := none
            pass_key := none } = Except.ok () :=
  ⟨phone_rule_applied_only_when_present.2.1 _ (asciiBytes "0712345678") rfl
      (by decide) (Or.inr rfl),
    (phone_rule_applied_only_when_present.2.2 _ rfl).mpr (Or.inr rfl)⟩

/-- C3 counterexample: `MpesaExpress::from_request` is a construction
path that yields a transmittable `MpesaExpress` without running any
validation rule — here one whose CommandId is outside
{BusinessBuyGoods, CustomerPayBillOnline}. -/
theorem from_request_bypasses_validation :
    (MpesaExpress.from_request Environment.Sandbox
          { business_short_code := asciiBytes "174379"
            password := ""
            timestamp := ⟨2023, 10, 10, 10, 10, 10⟩
            transaction_type := CommandId.SalaryPayment
            amount := 10
            party_a := asciiBytes "254712345678"
            party_b := asciiBytes "174379"
            phone_number := asciiBytes "0712345678"
            call_back_url := asciiBytes "https://example.com/callback"
            account_reference := asciiBytes "ref"
            transaction_desc := none } none).transaction_type =
        CommandId.SalaryPayment ∧
      CommandId.SalaryPayment ≠ CommandId.BusinessBuyGoods ∧
      CommandId.SalaryPayment ≠ CommandId.CustomerPayBillOnline ∧
      validPhoneNumber
          (MpesaExpress.from_request Environment.Sandbox
            { business_short_code := asciiBytes "174379"
              password := ""
              timestamp := ⟨2023, 10, 10, 10, 10, 10⟩
              transaction_type := CommandId.SalaryPayment
              amount := 10
              party_a := asciiBytes "254712345678"
              party_b := asciiBytes "174379"
              phone_number := asciiBytes "0712345678"
              call_back_url := asciiBytes "https://example.com/callback"
              account_reference := asciiBytes "ref"
              transaction_desc := none } none).phone_number = false := by
  refine ⟨rfl, by decide, by decide, by decide⟩

/-- C3 amended: every `MpesaExpress` produced through the builder's
`build` passed all validation rules — its CommandId is
BusinessBuyGoods or CustomerPayBillOnline and its phone number passes
the phone validator — and a built value never transitions back to a
builder.  However `MpesaExpress::from_request` constructs a
transmittable value directly from a wire request with no validation,
so the guarantee does not extend to every construction path. -/
theorem builder_built_requests_are_validated :
    ∀ (b : MpesaExpressBuilder) (e : MpesaExpress),
      b.build = Except.ok e →
        (e.transaction_type = CommandId.BusinessBuyGoods ∨
          e.transaction_type = CommandId.CustomerPayBillOnline) ∧
          validPhoneNumber e.phone_number = true := by
  intro b e hok
  obtain ⟨hval, htt, hph, -⟩ := build_ok_inversion b e hok
  obtain ⟨hcmd, hphone⟩ := (validate_ok_iff b).mp hval
  refine ⟨?_, hphone e.phone_number hph⟩
  rcases hcmd with h | h
  · rw [htt, Option.some.injEq] at h
    exact Or.inl h
  · rw [htt, Option.some.injEq] at h
    exact Or.inr h

theorem builder_built_requests_are_validated_witness :
    MpesaExpressBuilder.build
        { client := some Environment.Sandbox
          business_short_code := some (asciiBytes "174379")
          transaction_type := some CommandId.CustomerPayBillOnline
          amount := some 10
          party_a := some (asciiBytes "254712345678")
          party_b := some (asciiBytes "174379")
          phone_number := some (asciiBytes "254712345678")
          callback_url := some (asciiBytes "https://example.com/callback")
          account_ref := some (asciiBytes "ref")
          transaction_desc := none
          pass_key := none } =
      Except.ok
        { client := Environment.Sandbox
          business_short_code := asciiBytes "174379"
          transaction_type := CommandId.CustomerPayBillOnline
          amount := 10
          party_a := asciiBytes "254712345678"
          party_b := asciiBytes "174379"
          phone_number := asciiBytes "254712345678"
          callback_url := asciiBytes "https://example.com/callback"
          account_ref := asciiBytes "ref"
          transaction_desc := none
          pass_key := some DEFAULT_PASSKEY } ∧
      (CommandId.CustomerPayBillOnline = CommandId.BusinessBuyGoods ∨
        CommandId.CustomerPayBillOnline = CommandId.CustomerPayBillOnline) ∧
      validPhoneNumber (asciiBytes "254712345678") = true :=
  ⟨by decide,
    builder_built_requests_are_validated
      { client := some Environment.Sandbox
        business_short_code := some (asciiBytes "174379")
        transaction_type := some CommandId.CustomerPayBillOnline
        amount := some 10
        party_a := some (asciiBytes "254712345678")
        party_b := some (asciiBytes "174379")
        phone_number := some (asciiBytes "254712345678")
        callback_url := some (asciiBytes "https://example.com/callback")
        account_ref := some (asciiBytes "ref")
        transaction_desc := none
        pass_key := none }
      { client := Environment.Sandbox
        business_short_code := asciiBytes "174379"
        transaction_type := CommandId.CustomerPayBillOnline
        amount := 10
        party_a := asciiBytes "254712345678"
        party_b := asciiBytes "174379"
        phone_number := asciiBytes "254712345678"
        callback_url := asciiBytes "https://example.com/callback"
        account_ref := asciiBytes "ref"
        transaction_desc := none
        pass_key := some DEFAULT_PASSKEY } (by decide)⟩

/-- C6: when no caller-supplied passkey is present the well-known
default is substituted into the password derivation, unconditionally:
a builder that never set `pass_key` builds a request carrying
`Some(DEFAULT_PASSKEY)`; `encode_password` with an absent passkey
equals `encode_password` with the default; and the substitution is
independent of the client's environment — the password does not read
the environment at all. -/
theorem default_passkey_substituted_unconditionally :
    (∀ (b : MpesaExpressBuilder) (e : MpesaExpress), b.pass_key = none →
        b.build = Except.ok e → e.pass_key = some DEFAULT_PASSKEY) ∧
      (∀ (sc : List Nat) (now : Timestamp),
        encode_password sc none now =
          encode_password sc (some DEFAULT_PASSKEY) now) ∧
      ∀ (e : MpesaExpress) (env : Environment) (tField tPassword : Timestamp),
        (MpesaExpressRequest.fromExpress { e with client := env }
            tField tPassword).password =
          (MpesaExpressRequest.fromExpress e tField tPassword).password := by
  refine ⟨fun b e hnone hok => ?_, fun sc now => rfl, fun e env t1 t2 => rfl⟩
  obtain ⟨-, -, -, hpk⟩ := build_ok_inversion b e hok
  rw [hpk, hnone]
  rfl

theorem default_passkey_substituted_unconditionally_witness :
    MpesaExpressBuilder.pass_key
        { client := some Environment.Production
          business_short_code := some (asciiBytes "174379")
          transaction_type := some CommandId.CustomerPayBillOnline
          amount := some 10
          party_a := some (asciiBytes "254712345678")
          party_b := some (asciiBytes "174379")
          phone_number := some (asciiBytes "254712345678")
          callback_url := some (asciiBytes "https://example.com/callback")
          account_ref := some (asciiBytes "ref")
          transaction_desc := none
          pass_key := none } = none ∧
      MpesaExpress.pass_key
          { client := Environment.Production
            business_short_code := asciiBytes "174379"
            transaction_type := CommandId.CustomerPayBillOnline
            amount := 10
            party_a := asciiBytes "254712345678"
            party_b := asciiBytes "174379"
            phone_number := asciiBytes "254712345678"
            callback_url := asciiBytes "https://example.com/callback"
            account_ref := asciiBytes "ref"
            transaction_desc := none
            pass_key := some DEFAULT_PASSKEY } = some DEFAULT_PASSKEY :=
  ⟨rfl,
    default_passkey_substituted_unconditionally.1
      { client := some Environment.Production
        business_short_code := some (asciiBytes "174379")
        transaction_type := some CommandId.CustomerPayBillOnline
        amount := some 10
        party_a := some (asciiBytes "254712345678")
        party_b := some (asciiBytes "174379")
        phone_number := some (asciiBytes "254712345678")
        callback_url := some (asciiBytes "https://example.com/callback")
        account_ref := some (asciiBytes "ref")
        transaction_desc := none
        pass_key := none }
      { client := Environment.Production
        business_short_code := asciiBytes "174379"
        transaction_type := CommandId.CustomerPayBillOnline
        amount := 10
        party_a := asciiBytes "254712345678"
        party_b := asciiBytes "174379"
        phone_number := asciiBytes "254712345678"
        callback_url := asciiBytes "https://example.com/callback"
        account_ref := asciiBytes "ref"
        transaction_desc := none
        pass_key := some DEFAULT_PASSKEY } rfl (by decide)⟩

/-- C4: for every well-formed certificate with an RSA public key and
every initiator password shorter than modulus − 11 bytes,
`gen_security_credentials` returns a base64 string that decodes to
exactly the modulus width in bytes — the code base64-encodes the whole
output buffer of `pub_key.size()` bytes, not the plaintext — and the
output length is the same for every password content under a fixed
certificate. -/
theorem credential_decodes_to_modulus_bytes :
    ∀ (model : X509Model) (pem pw : List Nat) (cert : Cert)
      (pub_key : PubKey) (rsa_key : RsaKey),
      model.fromPem pem = some cert → cert.publicKey = some pub_key →
      pub_key.rsaKey = some rsa_key → RsaFaithful pub_key rsa_key →
      pw.length + 11 < rsa_key.modulusBytes →
      ∃ s : String, gen_security_credentials model pem pw = Except.ok s ∧
        (∃ bytes, base64decode s = some bytes ∧
          bytes.length = rsa_key.modulusBytes) ∧
        ∀ pw2 : List Nat, pw2.length + 11 < rsa_key.modulusBytes →
          ∃ s2, gen_security_credentials model pem pw2 = Except.ok s2 ∧
            s2.length = s.length := by
  intro model pem pw cert pub_key rsa_key hpem hcert hrsa hfaith hshort
  obtain ⟨hsize, henc⟩ := hfaith
  obtain ⟨ct, hct, hctb⟩ := henc pw hshort
  have hout : ∀ (q : List Nat) (cq : List Nat),
      rsa_key.encryptBytes q = some cq →
      gen_security_credentials model pem q =
        Except.ok (base64encode
          (writeBuffer (List.replicate pub_key.size 0) cq)) := by
    intro q cq hcq
    simp only [gen_security_credentials, hpem, hcert, hrsa, hcq]
  refine ⟨_, hout pw ct hct, ⟨writeBuffer (List.replicate pub_key.size 0) ct,
    ?_, ?_⟩, ?_⟩
  · unfold base64decode base64encode
    exact b64_roundtrip _ (writeBuffer_bytes_lt _ _
      (fun b hb => by rw [List.eq_of_mem_replicate hb]; omega) hctb)
  · rw [writeBuffer_length, List.length_replicate, hsize]
  · intro pw2 hshort2
    obtain ⟨ct2, hct2, hctb2⟩ := henc pw2 hshort2
    refine ⟨_, hout pw2 ct2 hct2, ?_⟩
    rw [base64encode_length, base64encode_length,
      writeBuffer_length, writeBuffer_length]

theorem credential_decodes_to_modulus_bytes_witness :
    ∃ s : String,
      gen_security_credentials
          ⟨fun _ => some ⟨some ⟨16, some ⟨16, fun _ => some (List.replicate 16 1)⟩⟩⟩⟩
          (asciiBytes "pem") (asciiBytes "pw") = Except.ok s ∧
        ∃ bytes, base64decode s = some bytes ∧ bytes.length = 16 := by
  obtain ⟨s, hs, hdec, -⟩ :=
    credential_decodes_to_modulus_bytes
      ⟨fun _ => some ⟨some ⟨16, some ⟨16, fun _ => some (List.replicate 16 1)⟩⟩⟩⟩
      (asciiBytes "pem") (asciiBytes "pw")
      ⟨some ⟨16, some ⟨16, fun _ => some (List.replicate 16 1)⟩⟩⟩
      ⟨16, some ⟨16, fun _ => some (List.replicate 16 1)⟩⟩
      ⟨16, fun _ => some (List.replicate 16 1)⟩
      rfl rfl rfl
      ⟨rfl, fun q _ => ⟨List.replicate 16 1, rfl,
        fun b hb => by rw [List.eq_of_mem_replicate hb]; omega⟩⟩
      (by decide)
  exact ⟨s, hs, hdec⟩

/-- C5: `gen_security_credentials` is a total function of its inputs
(the embedding returns on every input: no panic), and each failure
site maps to the spec's distinguishing variant: an unparsable PEM
yields `CertificateParse`, a missing or non-RSA public key yields
`KeyExtraction`, and a failing encryption call yields
`EncryptFailed`. -/
theorem credential_error_variants :
    ∀ (model : X509Model) (pem pw : List Nat),
      (model.fromPem pem = none →
        gen_security_credentials model pem pw =
          Except.error EncryptionError.CertificateParse) ∧
      (∀ cert, model.fromPem pem = some cert → cert.publicKey = none →
        gen_security_credentials model pem pw =
          Except.error EncryptionError.KeyExtraction) ∧
      (∀ cert pub_key, model.fromPem pem = some cert →
        cert.publicKey = some pub_key → pub_key.rsaKey = none →
        gen_security_credentials model pem pw =
          Except.error EncryptionError.KeyExtraction) ∧
      (∀ cert pub_key rsa_key, model.fromPem pem = some cert →
        cert.publicKey = some pub_key → pub_key.rsaKey = some rsa_key →
        rsa_key.encryptBytes pw = none →
        gen_security_credentials model pem pw =
          Except.error EncryptionError.EncryptFailed) ∧
      ((∃ s, gen_security_credentials model pem pw = Except.ok s) ∨
        ∃ err, gen_security_credentials model pem pw = Except.error err) := by
  intro model pem pw
  refine ⟨fun h => ?_, fun cert h1 h2 => ?_, fun cert pub_key h1 h2 h3 => ?_,
    fun cert pub_key rsa_key h1 h2 h3 h4 => ?_, ?_⟩
  · simp only [gen_security_credentials, h]
  · simp only [gen_security_credentials, h1, h2]
  · simp only [gen_security_credentials, h1, h2, h3]
  · simp only [gen_security_credentials, h1, h2, h3, h4]
  · cases hr : gen_security_credentials model pem pw with
    | ok s => exact Or.inl ⟨s, rfl⟩
    | error err => exact Or.inr ⟨err, rfl⟩

theorem credential_error_variants_witness :
    gen_security_credentials ⟨fun _ => none⟩ [] [] =
        Except.error EncryptionError.CertificateParse ∧
      gen_security_credentials ⟨fun _ => some ⟨none⟩⟩ [] [] =
        Except.error EncryptionError.KeyExtraction ∧
      gen_security_credentials ⟨fun _ => some ⟨some ⟨16, none⟩⟩⟩ [] [] =
        Except.error EncryptionError.KeyExtraction ∧
      gen_security_credentials
          ⟨fun _ => some ⟨some ⟨16, some ⟨16, fun _ => none⟩⟩⟩⟩ [] [] =
        Except.error EncryptionError.EncryptFailed :=
  ⟨(credential_error_variants ⟨fun _ => none⟩ [] []).1 rfl,
    (credential_error_variants ⟨fun _ => some ⟨none⟩⟩ [] []).2.1 ⟨none⟩ rfl rfl,
    (credential_error_variants ⟨fun _ => some ⟨some ⟨16, none⟩⟩⟩ [] []).2.2.1
      ⟨some ⟨16, none⟩⟩ ⟨16, none⟩ rfl rfl rfl,
    (credential_error_variants
        ⟨fun _ => some ⟨some ⟨16, some ⟨16, fun _ => none⟩⟩⟩⟩ [] []).2.2.2.1
      ⟨some ⟨16, some ⟨16, fun _ => none⟩⟩⟩ ⟨16, some ⟨16, fun _ => none⟩⟩
      ⟨16, fun _ => none⟩ rfl rfl rfl rfl⟩

end Mpesa
